import Mathlib

/-!
Verification model of the PerceptEye semantic router
(`src/semantic_router.py`, with the forced-route entry points of
`src/api_server.py`).

The router's pure decision logic is embedded shallowly:

* Python/JSON values are modelled by the inductive `PyVal`; Python `float`s
  and JSON numbers are modelled by `ℚ` (the claims under study compare and
  pass values through, and never perform rounding-sensitive arithmetic, so
  the rational model preserves the observable behaviour).
* `json.loads` is modelled by `json_loads`, an executable JSON parser over
  the character list of the input (objects, arrays, strings with escapes,
  numbers with fraction/exponent, `true`/`false`/`null`; Python's optional
  `NaN`/`Infinity` extensions are out of scope for the claims and are not
  modelled).
* Network effects (the Gemini oracle call and the two downstream handler
  POSTs) are modelled as explicit parameters: the oracle outcome is an
  `Except String String` (exception message, or the reply text), and each
  handler's HTTP interaction is a `CallResult` (a raised exception, tagged
  with whether it is a `requests` `RequestException`, or a decoded JSON
  body).
* A Python expression that may raise is modelled as an `Option`/`Except`
  value, `none`/`.error` standing for the raised exception.
-/

/-- Model of a Python value as produced by `json.loads` (and passed around
the router's dicts): `null`, booleans, numbers (as `ℚ`), strings, lists and
string-keyed dicts. -/
inductive PyVal where
  | null : PyVal
  | bool : Bool → PyVal
  | num : ℚ → PyVal
  | str : String → PyVal
  | list : List PyVal → PyVal
  | dict : List (String × PyVal) → PyVal

/-- `skipWs cs` drops leading JSON whitespace, as the Python `json` lexer
does between tokens. -/
def skipWs : List Char → List Char
  | [] => []
  | c :: cs => if c = ' ' ∨ c = '\t' ∨ c = '\n' ∨ c = '\r' then skipWs cs else c :: cs

/-- `startsWithList xs ys` is true when `xs` is an initial segment of `ys`. -/
def startsWithList : List Char → List Char → Bool
  | [], _ => true
  | _ :: _, [] => false
  | a :: as, b :: bs => a = b && startsWithList as bs

/-- `listContainsSub needle hay`: `needle` occurs as a contiguous sublist of
`hay` (Python's substring containment `needle in hay`). -/
def listContainsSub (needle : List Char) : List Char → Bool
  | [] => needle.isEmpty
  | b :: bs => startsWithList needle (b :: bs) || listContainsSub needle bs

/-- Python `s.endswith(suffixStr)`. -/
def strEndsWith (s suffixStr : String) : Bool :=
  startsWithList suffixStr.data.reverse s.data.reverse

/-- Python `s.rstrip('/')`: remove every trailing `'/'`. -/
def rstripSlashes (s : String) : String :=
  String.mk (s.data.reverse.dropWhile (fun c => c = '/')).reverse

/-- Python `s.find(c)` (first index of `c`, or `-1`), accumulating from
index `i`. -/
def strFindAux (t : Char) : List Char → Int → Int
  | [], _ => -1
  | c :: cs, i => if c = t then i else strFindAux t cs (i + 1)

/-- Python `s.find(c)`: index of the first occurrence of `c`, or `-1`. -/
def strFind (s : String) (t : Char) : Int :=
  strFindAux t s.data 0

/-- Python `s.rfind(c)`: index of the last occurrence of `c`, or `-1`. -/
def strRfind (s : String) (t : Char) : Int :=
  match strFindAux t s.data.reverse 0 with
  | -1 => -1
  | i => (s.data.length : Int) - 1 - i

/-- Python `s[a:b]` for `0 ≤ a ≤ b` (character slicing, clamped at the
string's end as in Python). -/
def pySlice (s : String) (a b : Int) : String :=
  String.mk (((s.data).drop a.toNat).take (b.toNat - a.toNat))

/-- Hexadecimal digit test for `\uXXXX` escapes. -/
def isHexDigitChar (c : Char) : Bool :=
  c.isDigit || (97 ≤ c.toNat && c.toNat ≤ 102) || (65 ≤ c.toNat && c.toNat ≤ 70)

/-- JSON string-body scanner: consumes characters after the opening quote up
to the closing quote, handling the JSON escapes (`\" \\ \/ \b \f \n \r \t`
and `\uXXXX`); rejects unescaped control characters and unknown escapes, as
Python's `json.loads` does. Returns the decoded string and the rest of the
input. -/
def parseStringBody : List Char → List Char → Option (String × List Char)
  | _acc, [] => none
  | acc, '"' :: rest => some (String.mk acc.reverse, rest)
  | acc, '\\' :: rest =>
    match rest with
    | '"' :: rs => parseStringBody ( '"' :: acc) rs
    | '\\' :: rs => parseStringBody ( '\\' :: acc) rs
    | '/' :: rs => parseStringBody ( '/' :: acc) rs
    | 'b' :: rs => parseStringBody (Char.ofNat 8 :: acc) rs
    | 'f' :: rs => parseStringBody (Char.ofNat 12 :: acc) rs
    | 'n' :: rs => parseStringBody ( '\n' :: acc) rs
    | 'r' :: rs => parseStringBody ( '\r' :: acc) rs
    | 't' :: rs => parseStringBody ( '\t' :: acc) rs
    | 'u' :: a :: b :: c :: d :: rs =>
      if isHexDigitChar a ∧ isHexDigitChar b ∧ isHexDigitChar c ∧ isHexDigitChar d then
        let n := ((a.toNat % 16 + (if a.isDigit then 0 else 9)) * 4096
          + (b.toNat % 16 + (if b.isDigit then 0 else 9)) * 256
          + (c.toNat % 16 + (if c.isDigit then 0 else 9)) * 16
          + (d.toNat % 16 + (if d.isDigit then 0 else 9)))
        parseStringBody (Char.ofNat n :: acc) rs
      else none
    | _ => none
  | acc, c :: rest => if c.toNat < 32 then none else parseStringBody (c :: acc) rest

/-- Splits off the longest leading run of decimal digits. -/
def takeDigits : List Char → List Char × List Char
  | [] => ([], [])
  | c :: cs =>
    if c.isDigit then
      let (ds, rest) := takeDigits cs
      (c :: ds, rest)
    else ([], c :: cs)

/-- Numeric value of a list of decimal digits. -/
def digitsToNat : List Char → Nat
  | [] => 0
  | ds => ds.foldl (fun acc c => acc * 10 + (c.toNat - 48)) 0

/-- JSON number parser (`-? int frac? exp?` with JSON's leading-zero rule),
yielding the exact rational value. -/
def parseNumber (cs : List Char) : Option (ℚ × List Char) :=
  let (neg, cs1) := match cs with
    | '-' :: rest => (true, rest)
    | _ => (false, cs)
  let (ip, cs2) := takeDigits cs1
  if ip.isEmpty then none
  else if ip.length > 1 ∧ ip.headD '0' = '0' then none
  else
    let (fp, cs3) := match cs2 with
      | '.' :: rest =>
        let (ds, r) := takeDigits rest
        (some ds, r)
      | _ => (none, cs2)
    match fp with
    | some [] => none
    | _ =>
      let (ex, cs4) : Option (Bool × List Char) × List Char := match cs3 with
        | 'e' :: rest =>
          (match rest with
            | '+' :: r2 => (some (false, takeDigits r2 |>.1), takeDigits r2 |>.2)
            | '-' :: r2 => (some (true, takeDigits r2 |>.1), takeDigits r2 |>.2)
            | r2 => (some (false, takeDigits r2 |>.1), takeDigits r2 |>.2))
        | 'E' :: rest =>
          (match rest with
            | '+' :: r2 => (some (false, takeDigits r2 |>.1), takeDigits r2 |>.2)
            | '-' :: r2 => (some (true, takeDigits r2 |>.1), takeDigits r2 |>.2)
            | r2 => (some (false, takeDigits r2 |>.1), takeDigits r2 |>.2))
        | _ => (none, cs3)
      match ex with
      | some (_, []) => none
      | _ =>
        let fracDigits := (fp.getD []).length
        let mantissa : ℚ := (digitsToNat (ip ++ fp.getD []) : ℚ) / ((10 : ℚ) ^ fracDigits)
        let scaled : ℚ := match ex with
          | some (eneg, eds) =>
            if eneg then mantissa / ((10 : ℚ) ^ digitsToNat eds)
            else mantissa * ((10 : ℚ) ^ digitsToNat eds)
          | none => mantissa
        some ((if neg then -scaled else scaled), cs4)

mutual

/-- Fuel-based JSON value parser (model of the grammar accepted by Python's
`json.loads`): returns the parsed value and the unconsumed input. -/
def parseValue : Nat → List Char → Option (PyVal × List Char)
  | 0, _ => none
  | Nat.succ fuel, cs =>
    match skipWs cs with
    | 'n' :: 'u' :: 'l' :: 'l' :: rest => some (.null, rest)
    | 't' :: 'r' :: 'u' :: 'e' :: rest => some (.bool true, rest)
    | 'f' :: 'a' :: 'l' :: 's' :: 'e' :: rest => some (.bool false, rest)
    | '"' :: rest =>
      match parseStringBody [] rest with
      | some (s, r) => some (.str s, r)
      | none => none
    | '[' :: rest =>
      (match skipWs rest with
        | ']' :: r2 => some (.list [], r2)
        | r2 =>
          match parseElems fuel r2 with
          | some (xs, r3) => some (.list xs, r3)
          | none => none)
    | '\x7b' :: rest =>
      (match skipWs rest with
        | '\x7d' :: r2 => some (.dict [], r2)
        | r2 =>
          match parseMembers fuel r2 with
          | some (kvs, r3) => some (.dict kvs, r3)
          | none => none)
    | c :: rest =>
      if c = '-' ∨ c.isDigit then
        match parseNumber (c :: rest) with
        | some (q, r) => some (.num q, r)
        | none => none
      else none
    | [] => none

/-- Comma-separated JSON array elements up to the closing bracket. -/
def parseElems : Nat → List Char → Option (List PyVal × List Char)
  | 0, _ => none
  | Nat.succ fuel, cs =>
    match parseValue fuel cs with
    | none => none
    | some (v, rest) =>
      match skipWs rest with
      | ',' :: r2 =>
        (match parseElems fuel r2 with
          | some (xs, r3) => some (v :: xs, r3)
          | none => none)
      | ']' :: r2 => some ([v], r2)
      | _ => none

/-- Comma-separated JSON object members up to the closing brace. -/
def parseMembers : Nat → List Char → Option (List (String × PyVal) × List Char)
  | 0, _ => none
  | Nat.succ fuel, cs =>
    match skipWs cs with
    | '"' :: rest =>
      (match parseStringBody [] rest with
        | none => none
        | some (k, r1) =>
          match skipWs r1 with
          | ':' :: r2 =>
            (match parseValue fuel r2 with
              | none => none
              | some (v, r3) =>
                match skipWs r3 with
                | ',' :: r4 =>
                  (match parseMembers fuel r4 with
                    | some (kvs, r5) => some ((k, v) :: kvs, r5)
                    | none => none)
                | '\x7d' :: r4 => some ([(k, v)], r4)
                | _ => none)
          | _ => none)
    | _ => none

end

/-- Model of Python `json.loads`: parse one JSON value, allow surrounding
whitespace, reject trailing garbage; `none` models the raised
`JSONDecodeError`. -/
def json_loads (s : String) : Option PyVal :=
  match parseValue (2 * s.data.length + 4) s.data with
  | some (v, rest) => if (skipWs rest).isEmpty then some v else none
  | none => none

/-- Value of the key `k` in a parsed JSON object. `json.loads` builds a
Python dict in which a repeated key keeps its last value, so the lookup
returns the LAST binding of `k`. -/
def lookupLast (kvs : List (String × PyVal)) (k : String) : Option PyVal :=
  match kvs with
  | [] => none
  | (k0, v0) :: rest =>
    match lookupLast rest k with
    | some v => some v
    | none => if k0 = k then some v0 else none

/-- Python string equality test `v == s` between a JSON value and a string
literal: only a `str` can compare equal to a string. -/
def pyEqStr (v : PyVal) (s : String) : Bool :=
  match v with
  | .str t => t = s
  | _ => false

/-- Python membership test `key in v`: key lookup for dicts, element
equality for lists, substring containment for strings; `none` models the
`TypeError` raised on the remaining types. -/
def pyContains (v : PyVal) (key : String) : Option Bool :=
  match v with
  | .dict kvs => some (kvs.any (fun kv => kv.1 = key))
  | .list xs => some (xs.any (fun x => pyEqStr x key))
  | .str s => some (listContainsSub key.data s.data)
  | _ => none

/-- Python subscript `v[key]` with a string key: defined for dicts
(`json.loads` dict semantics, last binding wins); `none` models the
`TypeError` raised when a string/list/number is indexed by a string. -/
def pyGetItem (v : PyVal) (key : String) : Option PyVal :=
  match v with
  | .dict kvs => lookupLast kvs key
  | _ => none

/-- Python `v.get(key, dflt)`: defined for dicts; `none` models the
`AttributeError` on any other receiver. -/
def pyDictGet (v : PyVal) (key : String) (dflt : PyVal) : Option PyVal :=
  match v with
  | .dict kvs => some ((lookupLast kvs key).getD dflt)
  | _ => none

/-- Whitespace as stripped by Python `float(str)`. -/
def pyWs (c : Char) : Bool :=
  c = ' ' ∨ c = '\t' ∨ c = '\n' ∨ c = '\r' ∨ c = '\x0b' ∨ c = '\x0c'

/-- Model of Python `float()` applied to a string: optional surrounding
whitespace, optional sign, decimal digits with an optional `.` (at least
one digit in the mantissa), optional exponent. `none` models the raised
`ValueError`. (`inf`/`nan` spellings have no rational value and are outside
the claims' scope; digit-group underscores are not modelled.) -/
def pyFloatOfString (s : String) : Option ℚ :=
  let cs := ((s.data.dropWhile pyWs).reverse.dropWhile pyWs).reverse
  let (neg, cs1) := match cs with
    | '-' :: rest => (true, rest)
    | '+' :: rest => (false, rest)
    | _ => (false, cs)
  let (ip, cs2) := takeDigits cs1
  let (fp, cs3) := match cs2 with
    | '.' :: rest => (takeDigits rest).map some id
    | _ => (none, cs2)
  if ip.isEmpty ∧ (fp.getD []).isEmpty then none
  else
    let mantissa : ℚ :=
      (digitsToNat (ip ++ fp.getD []) : ℚ) / ((10 : ℚ) ^ (fp.getD []).length)
    let signed : ℚ := if neg then -mantissa else mantissa
    match cs3 with
    | [] => some signed
    | 'e' :: rest =>
      (match rest with
        | '+' :: r2 =>
          (match takeDigits r2 with
            | ([], _) => none
            | (ds, []) => some (signed * ((10 : ℚ) ^ digitsToNat ds))
            | (_, _ :: _) => none)
        | '-' :: r2 =>
          (match takeDigits r2 with
            | ([], _) => none
            | (ds, []) => some (signed / ((10 : ℚ) ^ digitsToNat ds))
            | (_, _ :: _) => none)
        | r2 =>
          (match takeDigits r2 with
            | ([], _) => none
            | (ds, []) => some (signed * ((10 : ℚ) ^ digitsToNat ds))
            | (_, _ :: _) => none))
    | 'E' :: rest =>
      (match rest with
        | '+' :: r2 =>
          (match takeDigits r2 with
            | ([], _) => none
            | (ds, []) => some (signed * ((10 : ℚ) ^ digitsToNat ds))
            | (_, _ :: _) => none)
        | '-' :: r2 =>
          (match takeDigits r2 with
            | ([], _) => none
            | (ds, []) => some (signed / ((10 : ℚ) ^ digitsToNat ds))
            | (_, _ :: _) => none)
        | r2 =>
          (match takeDigits r2 with
            | ([], _) => none
            | (ds, []) => some (signed * ((10 : ℚ) ^ digitsToNat ds))
            | (_, _ :: _) => none))
    | _ => none

/-- Model of Python `float(v)` on a JSON value: numbers pass through, bools
coerce (`True → 1.0`, `False → 0.0`), numeric strings are parsed; `none`
models the `TypeError`/`ValueError` raised on `None`, lists and dicts (and
non-numeric strings). -/
def pyFloat (v : PyVal) : Option ℚ :=
  match v with
  | .num q => some q
  | .bool b => some (if b then 1 else 0)
  | .str s => pyFloatOfString s
  | _ => none

/-- The `RouteType` enum of `semantic_router.py` (values of its members). -/
def RouteType.FACE_RECOGNITION_TTS : String := "face_recognition_tts"

/-- `RouteType.SIGN_LANGUAGE.value`. -/
def RouteType.SIGN_LANGUAGE : String := "sign_language"

/-- `RouteType.NONE.value`, the sentinel label. -/
def RouteType.NONE : String := "none"

/-- The `RouterConfig` dataclass (the Gemini credential/model fields are
carried for shape; the decision logic reads only the URLs and the
threshold). Defaults are the dataclass defaults, `0.7 = 7/10` for the
threshold. -/
structure RouterConfig where
  gemini_api_key : String
  face_recognition_tts_api_url : String
  sign_language_api_url : String
  gemini_model : String := "gemini-2.0-flash-exp"
  confidence_threshold : ℚ := 7/10

/-- The routing-decision dict built by `_parse_routing_response` /
`analyze_frame`: keys `route`, `confidence`, `reasoning`, `error`. `route`
and `reasoning` hold whatever JSON value the oracle supplied (the code does
not coerce them), so they are `PyVal`; `confidence` is always the result of
`float(...)` or the literal `0.0`; `error` is always a Python bool. -/
structure RoutingDecision where
  route : PyVal
  confidence : ℚ
  reasoning : PyVal
  error : Bool

/-- The fallthrough decision returned when no JSON span is found or the
`route`/`confidence` keys are missing (`semantic_router.py` lines 190–196). -/
def failedParseDecision : RoutingDecision :=
  { route := PyVal.str RouteType.NONE
  , confidence := 0
  , reasoning := PyVal.str "Failed to parse routing decision"
  , error := true }

/-- The `except` branch of `_parse_routing_response` (lines 198–205):
`reasoning` carries `"Parse error: " + str(e)`; the embedding supplies a
modelled exception message `e`. -/
def parseErrorDecision (e : String) : RoutingDecision :=
  { route := PyVal.str RouteType.NONE
  , confidence := 0
  , reasoning := PyVal.str ("Parse error: " ++ e)
  , error := true }

/-- Lines 174–178 of `_parse_routing_response`: `content.find('{')`,
`content.rfind('}') + 1`, and the slice between them when
`start_idx != -1 and end_idx > start_idx`; `none` when no span is found. -/
def extract_json_str (content : String) : Option String :=
  let start_idx := strFind content '\x7b'
  let end_idx := strRfind content '\x7d' + 1
  if start_idx ≠ -1 ∧ end_idx > start_idx then
    some (pySlice content start_idx end_idx)
  else none

/-- Lines 181–196 applied to the loaded JSON value `routing_data`: the key
checks, the subscripts, the `float(...)` coercion and the `.get` with
default, each modelled exception short-circuiting into `.error` (which the
wrapper turns into the `except` branch). Key order follows Python's
evaluation order. -/
def validateRouting (routing_data : PyVal) : Except String RoutingDecision :=
  match pyContains routing_data "route" with
  | none => .error "argument of type is not iterable"
  | some false => .ok failedParseDecision
  | some true =>
    match pyContains routing_data "confidence" with
    | none => .error "argument of type is not iterable"
    | some false => .ok failedParseDecision
    | some true =>
      match pyGetItem routing_data "route" with
      | none => .error "indices must be integers"
      | some routeVal =>
        match pyGetItem routing_data "confidence" with
        | none => .error "indices must be integers"
        | some confVal =>
          match pyFloat confVal with
          | none => .error "could not convert to float"
          | some q =>
            match pyDictGet routing_data "reasoning" (PyVal.str "") with
            | none => .error "object has no attribute get"
            | some reasoningVal =>
              .ok { route := routeVal
                  , confidence := q
                  , reasoning := reasoningVal
                  , error := false }

/-- `_parse_routing_response` (lines 170–205): extract the `{...}` span,
`json.loads` it, validate; the no-span and missing-key paths fall through to
the default decision, and any modelled exception is caught into the
`except` branch. Total by construction — it always returns a decision. -/
def parse_routing_response (content : String) : RoutingDecision :=
  match extract_json_str content with
  | none => failedParseDecision
  | some json_str =>
    match json_loads json_str with
    | none => parseErrorDecision "Expecting value"
    | some routing_data =>
      match validateRouting routing_data with
      | .ok d => d
      | .error e => parseErrorDecision e

/-- `analyze_frame` (lines 101–168). The prompt construction, base64 image
decoding, optional `requests.get` image fetch and the Gemini call are one
external interaction inside the `try`; its outcome is the parameter
`oracle : Except String String` — `.ok content` is `response.text`,
`.error e` any exception raised before parsing (`str(e) = e`). The
`except` branch (lines 161–168) yields the synthetic error decision. -/
def analyze_frame (oracle : Except String String) : RoutingDecision :=
  match oracle with
  | .ok content => parse_routing_response content
  | .error e =>
    { route := PyVal.str RouteType.NONE
    , confidence := 0
    , reasoning := PyVal.str ("Error: " ++ e)
    , error := true }

/-- Outcome of one `requests` interaction as observed by the surrounding
Python code: either an exception (tagged with whether it is a
`requests.exceptions.RequestException`) or a decoded JSON response body. -/
inductive CallResult where
  | raises : Bool → String → CallResult
  | returns : PyVal → CallResult

/-- Python truthiness of an optional string (`if not image_base64`):
`None` and `""` are falsy. -/
def pyTruthyOptStr : Option String → Bool
  | none => false
  | some s => !(s = "")

/-- The dict returned by `_call_face_recognition_tts_api` when the image is
absent (line 308). -/
def noImageDict : PyVal :=
  PyVal.dict [("error", PyVal.str "No image provided for face recognition")]

/-- The dict returned by `_call_face_recognition_tts_api`'s
`except requests.exceptions.RequestException` clause (lines 350–357). -/
def faceRequestErrorDict (e : String) : PyVal :=
  PyVal.dict [ ("error", PyVal.str e)
             , ("faces", PyVal.list [])
             , ("unknown_count", PyVal.num 0)
             , ("announcement", PyVal.null) ]

/-- `_call_face_recognition_tts_api` (lines 267–357). The multipart form
assembly (`data`/`files`) has no observable effect on the claims and is
summarized by the `net` parameter, the outcome of the
`requests.post` + `raise_for_status` + `.json()` interaction. Control flow
is the source's: absent/empty image returns the error dict before any
request is issued; a `RequestException` is caught and converted to
`faceRequestErrorDict`; any other exception propagates; a response body is
returned as-is. -/
def call_face_recognition_tts_api (_cfg : RouterConfig)
    (image_base64 : Option String) (_audio_data : Option (List Nat))
    (_audio_description : Option String) (net : CallResult) : CallResult :=
  if pyTruthyOptStr image_base64 = false then
    .returns noImageDict
  else
    match net with
    | .raises true e => .returns (faceRequestErrorDict e)
    | .raises false e => .raises false e
    | .returns v => .returns v

/-- Lines 393–397 of `_call_sign_language_api`: the endpoint actually
posted to. A configured URL already ending in `/predict/base64` is used
unchanged; otherwise trailing slashes are stripped and the suffix appended. -/
def sign_language_endpoint (api_url : String) : String :=
  if strEndsWith api_url "/predict/base64" then api_url
  else rstripSlashes api_url ++ "/predict/base64"

/-- `_call_sign_language_api` (lines 375–421): posts
`{"image_base64": ...}` to the normalized endpoint; nothing is caught, so
the interaction's outcome (a function of the URL posted to) is returned
as-is — exceptions propagate to the caller. The result logging has no
effect on the returned value. -/
def call_sign_language_api (cfg : RouterConfig)
    (_image_base64 : Option String) (net : String → CallResult) : CallResult :=
  net (sign_language_endpoint cfg.sign_language_api_url)

/-- The dict returned by `route_and_call_api`: the decision, the optional
handler response, the status string, and the `error` detail attached only
on the error path. -/
structure DispatchResult where
  routing_decision : RoutingDecision
  api_response : Option PyVal
  status : String
  error : Option String

/-- `route_and_call_api` (lines 207–265). The oracle interaction and the
two handler interactions enter as parameters. Control flow is the
source's: gate on `error or confidence < threshold` → `skipped`; then the
`if/elif` on the route string inside `try` — a handler's returned value
yields `success`, a propagated exception yields `error` with the detail
attached, and a route matching neither label leaves `api_response = None`
and still yields `success`. -/
def route_and_call_api (cfg : RouterConfig)
    (image_base64 : Option String) (audio_data : Option (List Nat))
    (audio_description : Option String) (_image_url : Option String)
    (oracle : Except String String)
    (faceNet : CallResult) (signNet : String → CallResult) : DispatchResult :=
  let routing_decision := analyze_frame oracle
  if routing_decision.error = true ∨
      routing_decision.confidence < cfg.confidence_threshold then
    { routing_decision := routing_decision, api_response := none
    , status := "skipped", error := none }
  else
    let route_type := routing_decision.route
    if pyEqStr route_type RouteType.FACE_RECOGNITION_TTS then
      match call_face_recognition_tts_api cfg image_base64 audio_data
          audio_description faceNet with
      | .returns v =>
        { routing_decision := routing_decision, api_response := some v
        , status := "success", error := none }
      | .raises _ e =>
        { routing_decision := routing_decision, api_response := none
        , status := "error", error := some e }
    else if pyEqStr route_type RouteType.SIGN_LANGUAGE then
      match call_sign_language_api cfg image_base64 signNet with
      | .returns v =>
        { routing_decision := routing_decision, api_response := some v
        , status := "success", error := none }
      | .raises _ e =>
        { routing_decision := routing_decision, api_response := none
        , status := "error", error := some e }
    else
      { routing_decision := routing_decision, api_response := none
      , status := "success", error := none }

/-- The forced-route endpoint `/route/face-recognition` of `api_server.py`
(lines 172–183): calls `_call_face_recognition_tts_api` directly (no
classification) and wraps its return value as
`{"api_response": result, "status": "success"}`; an exception becomes an
HTTP 500 (`.error`). -/
def force_route_face_recognition (cfg : RouterConfig)
    (image_base64 : Option String) (audio_description : Option String)
    (net : CallResult) : Except String (Option PyVal × String) :=
  match call_face_recognition_tts_api cfg image_base64 none
      audio_description net with
  | .returns v => .ok (some v, "success")
  | .raises _ e => .error e

/-- A successful `lookupLast` means the key test of `pyContains` on a dict
succeeds. -/
lemma any_key_of_lookupLast :
    ∀ (kvs : List (String × PyVal)) (k : String) (v : PyVal),
      lookupLast kvs k = some v → (kvs.any (fun kv => kv.1 = k)) = true := by
  intro kvs k
  induction kvs with
  | nil => intro v h; simp [lookupLast] at h
  | cons hd tl ih =>
    intro v h
    simp only [lookupLast] at h
    simp only [List.any_cons]
    cases htl : lookupLast tl k with
    | some w =>
      rw [htl] at h
      have := ih w htl
      simp [this]
    | none =>
      rw [htl] at h
      by_cases heq : hd.1 = k
      · simp [heq]
      · rw [if_neg heq] at h
        exact absurd h (by simp)


/-- `validateRouting` only ever accepts with either the fallthrough default
decision or a decision marked `error = false`. -/
lemma validateRouting_ok_shape (rd : PyVal) (d : RoutingDecision)
    (h : validateRouting rd = .ok d) :
    d = failedParseDecision ∨ d.error = false := by
  unfold validateRouting at h
  repeat' split at h
  all_goals
    first
    | exact Except.noConfusion h
    | (injection h with h; subst h; first | (left; rfl) | (right; rfl))

/-- Concrete configuration used to instantiate the theorems on explicit
inputs. -/
def cfgW : RouterConfig :=
  { gemini_api_key := "key"
  , face_recognition_tts_api_url := "http://face/process"
  , sign_language_api_url := "http://sign" }

/-- Every output of `_parse_routing_response` is the fallthrough default,
an `except`-branch decision, or a successfully validated decision with
`error = false`. -/
lemma parse_routing_response_shape (content : String) :
    parse_routing_response content = failedParseDecision ∨
    (∃ e, parse_routing_response content = parseErrorDecision e) ∨
    (parse_routing_response content).error = false := by
  unfold parse_routing_response
  split
  · exact Or.inl rfl
  · split
    · exact Or.inr (Or.inl ⟨_, rfl⟩)
    · split
      · rename_i d hv
        rcases validateRouting_ok_shape _ d hv with hd | hd
        · exact Or.inl hd
        · exact Or.inr (Or.inr hd)
      · rename_i e _
        exact Or.inr (Or.inl ⟨e, rfl⟩)

/-- C3: `_parse_routing_response` is total by construction (a Lean function
`String → RoutingDecision`: it returns a decision for every input string,
never propagating a parse fault), and every decision it returns with
`error = true` is exactly the default record: label `"none"`, confidence
`0.0`, and a diagnostic reasoning string (the fallthrough text or a
`"Parse error: ..."` message). -/
theorem C3_malformed_outcome_shape (content : String)
    (h : (parse_routing_response content).error = true) :
    (parse_routing_response content).route = PyVal.str RouteType.NONE ∧
    (parse_routing_response content).confidence = 0 ∧
    ((parse_routing_response content).reasoning
        = PyVal.str "Failed to parse routing decision" ∨
      ∃ e, (parse_routing_response content).reasoning
          = PyVal.str ("Parse error: " ++ e)) := by
  rcases parse_routing_response_shape content with hd | ⟨e, hd⟩ | hf
  · rw [hd]; exact ⟨rfl, rfl, Or.inl rfl⟩
  · rw [hd]; exact ⟨rfl, rfl, Or.inr ⟨e, rfl⟩⟩
  · rw [hf] at h; exact absurd h (by simp)

/-- Witness for C3 at the concrete reply `"no json here"`. -/
theorem C3_malformed_outcome_shape_witness :
    (parse_routing_response "no json here").error = true ∧
    ((parse_routing_response "no json here").route = PyVal.str RouteType.NONE ∧
      (parse_routing_response "no json here").confidence = 0 ∧
      ((parse_routing_response "no json here").reasoning
          = PyVal.str "Failed to parse routing decision" ∨
        ∃ e, (parse_routing_response "no json here").reasoning
            = PyVal.str ("Parse error: " ++ e))) :=
  ⟨rfl, C3_malformed_outcome_shape "no json here" rfl⟩

/-- C6: any oracle failure is absorbed by `analyze_frame` into the
synthetic malformed decision (label `"none"`, confidence `0.0`, reasoning
`"Error: " + str(e)`), and the full dispatch then takes the parse-failure
path: `status = "skipped"` with `api_response` absent. -/
theorem C6_oracle_failure_absorbed (cfg : RouterConfig) (e : String)
    (image_base64 : Option String) (audio_data : Option (List Nat))
    (audio_description : Option String) (image_url : Option String)
    (faceNet : CallResult) (signNet : String → CallResult) :
    analyze_frame (.error e) =
      { route := PyVal.str RouteType.NONE, confidence := 0
      , reasoning := PyVal.str ("Error: " ++ e), error := true } ∧
    route_and_call_api cfg image_base64 audio_data audio_description
        image_url (.error e) faceNet signNet =
      { routing_decision := analyze_frame (.error e), api_response := none
      , status := "skipped", error := none } := by
  constructor
  · rfl
  · simp only [route_and_call_api]
    split
    · rfl
    · rename_i hcond
      exact absurd (Or.inl rfl) hcond

attribute [local semireducible] Rat.mul Rat.inv Rat.add Rat.sub Rat.ofScientific

/-- The dispatch result's status is `"skipped"` exactly when the confidence
gate fires: `decision.error` is truthy or the confidence is strictly below
the threshold. -/
lemma route_skipped_iff (cfg : RouterConfig)
    (image_base64 : Option String) (audio_data : Option (List Nat))
    (audio_description : Option String) (image_url : Option String)
    (oracle : Except String String)
    (faceNet : CallResult) (signNet : String → CallResult) :
    (route_and_call_api cfg image_base64 audio_data audio_description
        image_url oracle faceNet signNet).status = "skipped" ↔
      ((analyze_frame oracle).error = true ∨
        (analyze_frame oracle).confidence < cfg.confidence_threshold) := by
  simp only [route_and_call_api]
  by_cases hg : (analyze_frame oracle).error = true ∨
      (analyze_frame oracle).confidence < cfg.confidence_threshold
  · rw [if_pos hg]
    exact iff_of_true rfl hg
  · rw [if_neg hg]
    constructor
    · intro h
      exfalso
      repeat' split at h
      all_goals simp at h
    · intro h
      exact absurd h hg

/-- C8: the confidence gate uses strict `<`: for a non-malformed decision
the dispatch is skipped exactly when `confidence < threshold`, so a
confidence exactly equal to the threshold passes the gate; and the
`RouterConfig` dataclass default threshold is `0.7`. -/
theorem C8_gate_strict_lt (cfg : RouterConfig)
    (image_base64 : Option String) (audio_data : Option (List Nat))
    (audio_description : Option String) (image_url : Option String)
    (oracle : Except String String)
    (faceNet : CallResult) (signNet : String → CallResult)
    (herr : (analyze_frame oracle).error = false) :
    ((route_and_call_api cfg image_base64 audio_data audio_description
        image_url oracle faceNet signNet).status = "skipped" ↔
      (analyze_frame oracle).confidence < cfg.confidence_threshold) ∧
    ((analyze_frame oracle).confidence = cfg.confidence_threshold →
      (route_and_call_api cfg image_base64 audio_data audio_description
        image_url oracle faceNet signNet).status ≠ "skipped") ∧
    (∀ k f s, ({ gemini_api_key := k, face_recognition_tts_api_url := f
                , sign_language_api_url := s } : RouterConfig).confidence_threshold
        = 7 / 10) := by
  refine ⟨?_, ?_, fun k f s => rfl⟩
  · rw [route_skipped_iff]
    simp [herr]
  · intro heq
    rw [Ne, route_skipped_iff]
    simp [herr, heq]

/-- Witness for C8: with the default threshold `0.7` and an oracle reply of
confidence exactly `0.7`, the dispatch is not skipped. -/
theorem C8_gate_strict_lt_witness :
    (analyze_frame (.ok "\x7b\"route\": \"sign_language\", \"confidence\": 0.7\x7d")).error
        = false ∧
    (route_and_call_api cfgW (some "img") none none none
        (.ok "\x7b\"route\": \"sign_language\", \"confidence\": 0.7\x7d")
        (.raises true "x") (fun u => .returns (PyVal.str u))).status ≠ "skipped" :=
  ⟨rfl,
    (C8_gate_strict_lt cfgW (some "img") none none none
        (.ok "\x7b\"route\": \"sign_language\", \"confidence\": 0.7\x7d")
        (.raises true "x") (fun u => .returns (PyVal.str u)) rfl).2.1
      (by decide)⟩

/-- `startsWithList` accepts a list followed by anything. -/
lemma startsWithList_self_append (xs zs : List Char) :
    startsWithList xs (xs ++ zs) = true := by
  induction xs with
  | nil => rfl
  | cons a as ih => simp [startsWithList, ih]

/-- The concatenation of two strings ends with the second. -/
lemma strEndsWith_append (a b : String) : strEndsWith (a ++ b) b = true := by
  unfold strEndsWith
  have hd : (a ++ b).data = a.data ++ b.data := by
    cases a; cases b; rfl
  rw [hd, List.reverse_append]
  exact startsWithList_self_append _ _

/-- C9: the URL the sign-language handler posts to always ends with the
canonical suffix `/predict/base64`; a configured URL already ending in the
suffix is used unchanged, otherwise trailing slashes are stripped and the
suffix appended; a bare host and the corresponding full endpoint normalize
to the same canonical endpoint; and `_call_sign_language_api` posts exactly
to the normalized endpoint of the configured base URL. -/
theorem C9_endpoint_normalization (url : String) (cfg : RouterConfig)
    (image_base64 : Option String) (net : String → CallResult) :
    strEndsWith (sign_language_endpoint url) "/predict/base64" = true ∧
    (strEndsWith url "/predict/base64" = true → sign_language_endpoint url = url) ∧
    (strEndsWith url "/predict/base64" = false →
      sign_language_endpoint url = rstripSlashes url ++ "/predict/base64") ∧
    (strEndsWith url "/predict/base64" = false →
      sign_language_endpoint url
        = sign_language_endpoint (rstripSlashes url ++ "/predict/base64")) ∧
    call_sign_language_api cfg image_base64 net
      = net (sign_language_endpoint cfg.sign_language_api_url) := by
  refine ⟨?_, ?_, ?_, ?_, rfl⟩
  · unfold sign_language_endpoint
    by_cases h : strEndsWith url "/predict/base64" = true
    · rw [if_pos h]; exact h
    · rw [if_neg h]; exact strEndsWith_append _ _
  · intro h
    unfold sign_language_endpoint
    rw [if_pos h]
  · intro h
    unfold sign_language_endpoint
    rw [if_neg (by simp [h])]
  · intro h
    unfold sign_language_endpoint
    rw [if_neg (by simp [h]), if_pos (strEndsWith_append _ _)]

/-- Witness for C9 at the bare host `"http://sign"`. -/
theorem C9_endpoint_normalization_witness :
    strEndsWith (sign_language_endpoint "http://sign") "/predict/base64" = true ∧
    sign_language_endpoint "http://sign" = "http://sign/predict/base64" ∧
    sign_language_endpoint "http://sign"
      = sign_language_endpoint (rstripSlashes "http://sign" ++ "/predict/base64") :=
  ⟨(C9_endpoint_normalization "http://sign" cfgW none
      (fun _ => .returns PyVal.null)).1,
   rfl,
   (C9_endpoint_normalization "http://sign" cfgW none
      (fun _ => .returns PyVal.null)).2.2.2.1 (by decide)⟩

/-- Reduction of `_parse_routing_response` once the span extraction and the
`json.loads` stages are fixed. -/
lemma parse_of_pipeline (content js : String) (rd : PyVal)
    (hx : extract_json_str content = some js) (hl : json_loads js = some rd) :
    parse_routing_response content
      = (match validateRouting rd with
         | .ok d => d
         | .error e => parseErrorDecision e) := by
  unfold parse_routing_response
  split
  · rename_i h
    rw [hx] at h
    exact Option.noConfusion h
  · rename_i js2 h
    rw [hx] at h
    injection h with h
    subst h
    split
    · rename_i h2
      rw [hl] at h2
      exact Option.noConfusion h2
    · rename_i rd2 h2
      rw [hl] at h2
      injection h2 with h2
      subst h2
      rfl

/-- `validateRouting` on a JSON object carrying both keys whose confidence
coerces: the decision is accepted with the route value passed through and
the coerced confidence. -/
lemma validateRouting_success (kvs : List (String × PyVal)) (r c : PyVal) (q : ℚ)
    (hr : lookupLast kvs "route" = some r)
    (hc : lookupLast kvs "confidence" = some c)
    (hq : pyFloat c = some q) :
    validateRouting (PyVal.dict kvs)
      = .ok { route := r, confidence := q
            , reasoning := (lookupLast kvs "reasoning").getD (PyVal.str "")
            , error := false } := by
  have h1 : pyContains (PyVal.dict kvs) "route" = some true := by
    simp only [pyContains]
    rw [any_key_of_lookupLast kvs "route" r hr]
  have h2 : pyContains (PyVal.dict kvs) "confidence" = some true := by
    simp only [pyContains]
    rw [any_key_of_lookupLast kvs "confidence" c hc]
  simp only [validateRouting, h1, h2, pyGetItem, hr, hc, hq, pyDictGet]

/-- `_parse_routing_response` on a successful decode: route and coerced
confidence pass through exactly; `reasoning` is the object's value or `""`. -/
lemma parse_success (content js : String) (kvs : List (String × PyVal))
    (r c : PyVal) (q : ℚ)
    (hx : extract_json_str content = some js)
    (hl : json_loads js = some (PyVal.dict kvs))
    (hr : lookupLast kvs "route" = some r)
    (hc : lookupLast kvs "confidence" = some c)
    (hq : pyFloat c = some q) :
    parse_routing_response content
      = { route := r, confidence := q
        , reasoning := (lookupLast kvs "reasoning").getD (PyVal.str "")
        , error := false } := by
  rw [parse_of_pipeline content js _ hx hl,
    validateRouting_success kvs r c q hr hc hq]

/-- C2 counterexample: on the reply whose JSON object carries the
unrecognized label `"banana"` with confidence `0.9`, Decode returns
`error = false` with the label passed through — not the claimed
`malformed = true` with label forced to `"none"`. -/
theorem C2_counterexample :
    (parse_routing_response
        "\x7b\"route\": \"banana\", \"confidence\": 0.9\x7d").error = false ∧
    (parse_routing_response
        "\x7b\"route\": \"banana\", \"confidence\": 0.9\x7d").route
      = PyVal.str "banana" ∧
    (parse_routing_response
        "\x7b\"route\": \"banana\", \"confidence\": 0.9\x7d").confidence = 9 / 10 :=
  ⟨rfl, rfl, by decide⟩

/-- C2 (amended): `_parse_routing_response` performs no membership
validation on `route`. For every reply whose extracted JSON object has
`route` and `confidence` keys and whose confidence value coerces, the
decision is returned with `error = false` and the route value passed
through unchanged — also when the route is outside the configured label
set `{face_recognition_tts, sign_language, none}`. -/
theorem C2_unrecognized_route_passthrough (content js : String)
    (kvs : List (String × PyVal)) (r c : PyVal) (q : ℚ)
    (hx : extract_json_str content = some js)
    (hl : json_loads js = some (PyVal.dict kvs))
    (hr : lookupLast kvs "route" = some r)
    (hc : lookupLast kvs "confidence" = some c)
    (hq : pyFloat c = some q)
    (_hout : r ≠ PyVal.str RouteType.FACE_RECOGNITION_TTS ∧
        r ≠ PyVal.str RouteType.SIGN_LANGUAGE ∧
        r ≠ PyVal.str RouteType.NONE) :
    (parse_routing_response content).error = false ∧
    (parse_routing_response content).route = r := by
  rw [parse_success content js kvs r c q hx hl hr hc hq]
  exact ⟨rfl, rfl⟩

/-- Witness for the amended C2 at the `"banana"` reply. -/
theorem C2_unrecognized_route_passthrough_witness :
    (parse_routing_response
        "\x7b\"route\": \"banana\", \"confidence\": 0.8\x7d").error = false ∧
    (parse_routing_response
        "\x7b\"route\": \"banana\", \"confidence\": 0.8\x7d").route
      = PyVal.str "banana" :=
  C2_unrecognized_route_passthrough
    "\x7b\"route\": \"banana\", \"confidence\": 0.8\x7d"
    "\x7b\"route\": \"banana\", \"confidence\": 0.8\x7d"
    [("route", PyVal.str "banana"), ("confidence", PyVal.num (8 / 10))]
    (PyVal.str "banana") (PyVal.num (8 / 10)) (8 / 10)
    rfl rfl rfl rfl rfl
    ⟨by intro h; injection h with h; exact absurd h (by decide),
     by intro h; injection h with h; exact absurd h (by decide),
     by intro h; injection h with h; exact absurd h (by decide)⟩

/-- C5 counterexample: the parsed confidence `1.5` is returned as `3/2`
with `error = false` — outside `[0, 1]`, neither clamped nor rejected. -/
theorem C5_counterexample :
    (parse_routing_response
        "\x7b\"route\": \"sign_language\", \"confidence\": 1.5\x7d").error = false ∧
    (parse_routing_response
        "\x7b\"route\": \"sign_language\", \"confidence\": 1.5\x7d").confidence
      = 3 / 2 ∧
    ¬ ((parse_routing_response
        "\x7b\"route\": \"sign_language\", \"confidence\": 1.5\x7d").confidence ≤ 1) :=
  ⟨rfl, by decide, by decide⟩

/-- C5 (amended): on every successful decode the decision carries exactly
the parsed label and exactly the `float()`-coerced confidence, with no
clamping into `[0, 1]`: an out-of-range parsed confidence is returned out
of range. -/
theorem C5_confidence_not_clamped (content js : String)
    (kvs : List (String × PyVal)) (r c : PyVal) (q : ℚ)
    (hx : extract_json_str content = some js)
    (hl : json_loads js = some (PyVal.dict kvs))
    (hr : lookupLast kvs "route" = some r)
    (hc : lookupLast kvs "confidence" = some c)
    (hq : pyFloat c = some q) :
    parse_routing_response content
      = { route := r, confidence := q
        , reasoning := (lookupLast kvs "reasoning").getD (PyVal.str "")
        , error := false } :=
  parse_success content js kvs r c q hx hl hr hc hq

/-- Witness for the amended C5 at confidence `1.5`: the decision carries
`3/2`, untouched. -/
theorem C5_confidence_not_clamped_witness :
    parse_routing_response
        "\x7b\"route\": \"sign_language\", \"confidence\": 1.5\x7d"
      = { route := PyVal.str "sign_language", confidence := 15 / 10
        , reasoning := PyVal.str "", error := false } :=
  C5_confidence_not_clamped
    "\x7b\"route\": \"sign_language\", \"confidence\": 1.5\x7d"
    "\x7b\"route\": \"sign_language\", \"confidence\": 1.5\x7d"
    [("route", PyVal.str "sign_language"), ("confidence", PyVal.num (15 / 10))]
    (PyVal.str "sign_language") (PyVal.num (15 / 10)) (15 / 10)
    rfl rfl rfl rfl rfl

/-- C10: once the extracted JSON object has both keys, malformedness is
decided solely by whether the Python `float()` coercion of the confidence
value succeeds — the route value is never inspected: coercion success gives
`error = false` with that confidence, coercion failure gives the
`"could not convert to float"` `except` outcome; and `float()` accepts the
numeric string `"0.9"` and the boolean `true` (as `1.0`) but rejects `null`
and lists. -/
theorem C10_malformed_iff_float_fails (content js : String)
    (kvs : List (String × PyVal)) (r c : PyVal)
    (hx : extract_json_str content = some js)
    (hl : json_loads js = some (PyVal.dict kvs))
    (hr : lookupLast kvs "route" = some r)
    (hc : lookupLast kvs "confidence" = some c) :
    ((∀ q, pyFloat c = some q →
        (parse_routing_response content).error = false ∧
        (parse_routing_response content).confidence = q) ∧
      (pyFloat c = none →
        parse_routing_response content
          = parseErrorDecision "could not convert to float")) ∧
    pyFloat (PyVal.str "0.9") = some (9 / 10) ∧
    pyFloat (PyVal.bool true) = some 1 ∧
    pyFloat PyVal.null = none ∧
    pyFloat (PyVal.list [PyVal.num 1]) = none := by
  refine ⟨⟨?_, ?_⟩, by decide, rfl, rfl, rfl⟩
  · intro q hq
    rw [parse_success content js kvs r c q hx hl hr hc hq]
    exact ⟨rfl, rfl⟩
  · intro hq
    rw [parse_of_pipeline content js _ hx hl]
    have h1 : pyContains (PyVal.dict kvs) "route" = some true := by
      simp only [pyContains]
      rw [any_key_of_lookupLast kvs "route" r hr]
    have h2 : pyContains (PyVal.dict kvs) "confidence" = some true := by
      simp only [pyContains]
      rw [any_key_of_lookupLast kvs "confidence" c hc]
    simp only [validateRouting, h1, h2, pyGetItem, hr, hc, hq]

/-- Witness for C10 at the reply whose confidence is the boolean `true`. -/
theorem C10_malformed_iff_float_fails_witness :
    (parse_routing_response
        "\x7b\"route\": \"none\", \"confidence\": true\x7d").error = false ∧
    (parse_routing_response
        "\x7b\"route\": \"none\", \"confidence\": true\x7d").confidence = 1 :=
  (C10_malformed_iff_float_fails
      "\x7b\"route\": \"none\", \"confidence\": true\x7d"
      "\x7b\"route\": \"none\", \"confidence\": true\x7d"
      [("route", PyVal.str "none"), ("confidence", PyVal.bool true)]
      (PyVal.str "none") (PyVal.bool true)
      rfl rfl rfl rfl).1.1 1 rfl

/-- C1 counterexample: a decision with the sentinel label `"none"` and
confidence `0.9` passes the gate, matches no handler branch, and the
dispatch returns `status = "success"` (with `api_response = None`) — not
the claimed `status = "skipped"`; so `status = "success"` does not imply a
handler was invoked. -/
theorem C1_counterexample :
    (route_and_call_api cfgW (some "img") none none none
        (.ok "\x7b\"route\": \"none\", \"confidence\": 0.9\x7d")
        (.raises true "x") (fun _ => .raises true "y")).status = "success" ∧
    ¬ (route_and_call_api cfgW (some "img") none none none
        (.ok "\x7b\"route\": \"none\", \"confidence\": 0.9\x7d")
        (.raises true "x") (fun _ => .raises true "y")).status = "skipped" ∧
    (route_and_call_api cfgW (some "img") none none none
        (.ok "\x7b\"route\": \"none\", \"confidence\": 0.9\x7d")
        (.raises true "x") (fun _ => .raises true "y")).api_response = none :=
  ⟨by decide, by decide, rfl⟩

/-- C1 (amended): a gate-passing decision whose label matches no registered
handler — the sentinel `"none"` or any label outside the configured set —
yields `status = "success"` with `api_response` absent (never
`status = "error"` and never `"skipped"`), for every behaviour of both
handlers; so no handler is invoked, and `status = "success"` does not imply
a handler was invoked. -/
theorem C1_unregistered_label_dispatch (cfg : RouterConfig)
    (image_base64 : Option String) (audio_data : Option (List Nat))
    (audio_description : Option String) (image_url : Option String)
    (oracle : Except String String)
    (faceNet : CallResult) (signNet : String → CallResult)
    (herr : (analyze_frame oracle).error = false)
    (hconf : ¬ (analyze_frame oracle).confidence < cfg.confidence_threshold)
    (hface : pyEqStr (analyze_frame oracle).route RouteType.FACE_RECOGNITION_TTS
        = false)
    (hsign : pyEqStr (analyze_frame oracle).route RouteType.SIGN_LANGUAGE
        = false) :
    route_and_call_api cfg image_base64 audio_data audio_description
        image_url oracle faceNet signNet
      = { routing_decision := analyze_frame oracle, api_response := none
        , status := "success", error := none } := by
  simp only [route_and_call_api]
  rw [if_neg (by simp [herr, hconf]), if_neg (by simp [hface]),
    if_neg (by simp [hsign])]

/-- Witness for the amended C1 at the `"none"`-label reply. -/
theorem C1_unregistered_label_dispatch_witness :
    route_and_call_api cfgW (some "img") none none none
        (.ok "\x7b\"route\": \"none\", \"confidence\": 0.8\x7d")
        (.raises true "x") (fun _ => .raises true "y")
      = { routing_decision :=
            analyze_frame (.ok "\x7b\"route\": \"none\", \"confidence\": 0.8\x7d")
        , api_response := none, status := "success", error := none } :=
  C1_unregistered_label_dispatch cfgW (some "img") none none none
    (.ok "\x7b\"route\": \"none\", \"confidence\": 0.8\x7d")
    (.raises true "x") (fun _ => .raises true "y")
    rfl (by decide) rfl rfl

/-- C4 counterexample: with a gate-passing `face_recognition_tts` decision
and the handler raising a `RequestException` (connection failure), the
dispatch returns `status = "success"` with the handler's error payload as
`api_response` — not the claimed `status = "error"` with `api_response`
absent. -/
theorem C4_counterexample :
    (route_and_call_api cfgW (some "img") none none none
        (.ok "\x7b\"route\": \"face_recognition_tts\", \"confidence\": 0.92\x7d")
        (.raises true "connection refused") (fun _ => .returns PyVal.null)).status
      = "success" ∧
    ¬ (route_and_call_api cfgW (some "img") none none none
        (.ok "\x7b\"route\": \"face_recognition_tts\", \"confidence\": 0.92\x7d")
        (.raises true "connection refused") (fun _ => .returns PyVal.null)).status
      = "error" ∧
    (route_and_call_api cfgW (some "img") none none none
        (.ok "\x7b\"route\": \"face_recognition_tts\", \"confidence\": 0.92\x7d")
        (.raises true "connection refused") (fun _ => .returns PyVal.null)).api_response
      = some (faceRequestErrorDict "connection refused") :=
  ⟨by decide, by decide, rfl⟩

/-- C4 (amended): a failing handler call yields `status = "error"` with the
decision still present, `api_response` absent and the error detail attached
for the SIGN-LANGUAGE handler (which propagates every exception); the
face-recognition handler instead catches transport failures
(`RequestException`) internally and returns an error payload, which the
dispatch reports as `status = "success"` with that payload as
`api_response`. -/
theorem C4_handler_failure_paths (cfg : RouterConfig)
    (image_base64 : Option String) (audio_data : Option (List Nat))
    (audio_description : Option String) (image_url : Option String)
    (oracle : Except String String)
    (faceNet : CallResult) (signNet : String → CallResult)
    (herr : (analyze_frame oracle).error = false)
    (hconf : ¬ (analyze_frame oracle).confidence < cfg.confidence_threshold) :
    (pyEqStr (analyze_frame oracle).route RouteType.FACE_RECOGNITION_TTS = false →
      pyEqStr (analyze_frame oracle).route RouteType.SIGN_LANGUAGE = true →
      ∀ (b : Bool) (e : String),
        route_and_call_api cfg image_base64 audio_data audio_description
            image_url oracle faceNet (fun _ => .raises b e)
          = { routing_decision := analyze_frame oracle, api_response := none
            , status := "error", error := some e }) ∧
    (pyEqStr (analyze_frame oracle).route RouteType.FACE_RECOGNITION_TTS = true →
      pyTruthyOptStr image_base64 = true →
      ∀ e : String,
        route_and_call_api cfg image_base64 audio_data audio_description
            image_url oracle (.raises true e) signNet
          = { routing_decision := analyze_frame oracle
            , api_response := some (faceRequestErrorDict e)
            , status := "success", error := none }) := by
  constructor
  · intro hface hsign b e
    simp only [route_and_call_api]
    rw [if_neg (by simp [herr, hconf]), if_neg (by simp [hface]), if_pos hsign]
    rfl
  · intro hface himg e
    simp only [route_and_call_api]
    rw [if_neg (by simp [herr, hconf]), if_pos hface]
    simp only [call_face_recognition_tts_api, himg]
    rfl

/-- Witness for the amended C4: the sign-language part at a concrete raised
failure, and the face part at a concrete caught `RequestException`. -/
theorem C4_handler_failure_paths_witness :
    route_and_call_api cfgW (some "img") none none none
        (.ok "\x7b\"route\": \"sign_language\", \"confidence\": 0.92\x7d")
        (.raises true "x") (fun _ => .raises true "conn fail")
      = { routing_decision :=
            analyze_frame
              (.ok "\x7b\"route\": \"sign_language\", \"confidence\": 0.92\x7d")
        , api_response := none, status := "error", error := some "conn fail" } ∧
    route_and_call_api cfgW (some "img") none none none
        (.ok "\x7b\"route\": \"face_recognition_tts\", \"confidence\": 0.93\x7d")
        (.raises true "conn fail") (fun _ => .returns PyVal.null)
      = { routing_decision :=
            analyze_frame
              (.ok "\x7b\"route\": \"face_recognition_tts\", \"confidence\": 0.93\x7d")
        , api_response := some (faceRequestErrorDict "conn fail")
        , status := "success", error := none } :=
  ⟨(C4_handler_failure_paths cfgW (some "img") none none none
      (.ok "\x7b\"route\": \"sign_language\", \"confidence\": 0.92\x7d")
      (.raises true "x") (fun _ => .raises true "conn fail")
      rfl (by decide)).1 rfl rfl true "conn fail",
   (C4_handler_failure_paths cfgW (some "img") none none none
      (.ok "\x7b\"route\": \"face_recognition_tts\", \"confidence\": 0.93\x7d")
      (.raises true "conn fail") (fun _ => .returns PyVal.null)
      rfl (by decide)).2 rfl rfl "conn fail"⟩

/-- C7 counterexample: a gate-passing `face_recognition_tts` decision on a
frame with no image payload makes the dispatch return `status = "success"`
with the input-validation error payload as `api_response` — not the claimed
failure outcome `status = "error"`. -/
theorem C7_counterexample :
    (route_and_call_api cfgW none none none none
        (.ok "\x7b\"route\": \"face_recognition_tts\", \"confidence\": 0.92\x7d")
        (.raises true "never sent") (fun _ => .returns PyVal.null)).status
      = "success" ∧
    ¬ (route_and_call_api cfgW none none none none
        (.ok "\x7b\"route\": \"face_recognition_tts\", \"confidence\": 0.92\x7d")
        (.raises true "never sent") (fun _ => .returns PyVal.null)).status
      = "error" ∧
    (route_and_call_api cfgW none none none none
        (.ok "\x7b\"route\": \"face_recognition_tts\", \"confidence\": 0.92\x7d")
        (.raises true "never sent") (fun _ => .returns PyVal.null)).api_response
      = some noImageDict :=
  ⟨by decide, by decide, rfl⟩

/-- C7 (amended): when the face-recognition handler is invoked — via the
gate or via the forced route — on a frame whose image payload is absent (or
empty, which Python treats as falsy), it fails fast with the
input-validation payload `{"error": "No image provided for face
recognition"}` and no downstream request is issued (the result is the same
for every network behaviour); the dispatch surfaces this as
`status = "success"` with that payload as `api_response`, and the forced
route as `("success", payload)` — not as a `status = "error"` failure. -/
theorem C7_missing_image_fails_fast (cfg : RouterConfig)
    (image_base64 : Option String) (audio_data : Option (List Nat))
    (audio_description : Option String) (image_url : Option String)
    (oracle : Except String String) (signNet : String → CallResult)
    (herr : (analyze_frame oracle).error = false)
    (hconf : ¬ (analyze_frame oracle).confidence < cfg.confidence_threshold)
    (hface : pyEqStr (analyze_frame oracle).route RouteType.FACE_RECOGNITION_TTS
        = true)
    (himg : pyTruthyOptStr image_base64 = false) :
    (∀ faceNet,
      route_and_call_api cfg image_base64 audio_data audio_description
          image_url oracle faceNet signNet
        = { routing_decision := analyze_frame oracle
          , api_response := some noImageDict
          , status := "success", error := none }) ∧
    (∀ (net : CallResult) (audD : Option String),
      force_route_face_recognition cfg image_base64 audD net
        = .ok (some noImageDict, "success")) := by
  constructor
  · intro faceNet
    simp only [route_and_call_api]
    rw [if_neg (by simp [herr, hconf]), if_pos hface]
    simp only [call_face_recognition_tts_api, himg]
    rfl
  · intro net audD
    simp only [force_route_face_recognition, call_face_recognition_tts_api, himg]
    rfl

/-- Witness for the amended C7 at a concrete imageless dispatch and forced
route. -/
theorem C7_missing_image_fails_fast_witness :
    route_and_call_api cfgW none none none none
        (.ok "\x7b\"route\": \"face_recognition_tts\", \"confidence\": 0.95\x7d")
        (.raises true "never sent") (fun _ => .returns PyVal.null)
      = { routing_decision :=
            analyze_frame
              (.ok "\x7b\"route\": \"face_recognition_tts\", \"confidence\": 0.95\x7d")
        , api_response := some noImageDict
        , status := "success", error := none } ∧
    force_route_face_recognition cfgW none (some "hello")
        (.raises true "never sent")
      = .ok (some noImageDict, "success") :=
  ⟨(C7_missing_image_fails_fast cfgW none none none none
      (.ok "\x7b\"route\": \"face_recognition_tts\", \"confidence\": 0.95\x7d")
      (fun _ => .returns PyVal.null) rfl (by decide) rfl rfl).1
      (.raises true "never sent"),
   (C7_missing_image_fails_fast cfgW none none none none
      (.ok "\x7b\"route\": \"face_recognition_tts\", \"confidence\": 0.95\x7d")
      (fun _ => .returns PyVal.null) rfl (by decide) rfl rfl).2
      (.raises true "never sent") (some "hello")⟩
